import Mathlib

/-!
Shallow embedding of the `plp` Anchor program
(`src/programs/plp/src/lib.rs`): a single-asset liquidity-pool state
machine with five entry points (init_pool, buy, sell, lock_liquidity,
graduate) over a `Pool` account record with checked u64 arithmetic.

Modelling conventions:
* `u64` counters are `Nat` with an explicit bound `UMAX = 2^64 - 1`;
  `checked_add` / `checked_sub` mirror Rust's checked arithmetic.
* `Pubkey` values are opaque and modelled as `Nat`.
* Each handler is a pure function from the pool record and arguments to
  `Except e Pool`.  The hosting ledger commits the returned record on
  `Ok` and discards all effects on `Err` (all-or-nothing commit);
  `commit` captures that semantics.
* Anchor's `has_one = authority` constraint on `UpdateState` is modelled
  by `hasOneAuthority`, failing with `AnchorError.ConstraintHasOne`
  before the handler body runs.
-/

namespace Plp

/-- Largest value representable by a `u64` counter. -/
def UMAX : Nat := 2 ^ 64 - 1

/-- Rust `u64::checked_add`: the sum when it fits in 64 bits, `none` on
overflow. -/
def checked_add (a b : Nat) : Option Nat :=
  if a + b ≤ UMAX then some (a + b) else none

/-- Rust `u64::checked_sub`: the difference when no underflow occurs,
`none` otherwise. -/
def checked_sub (a b : Nat) : Option Nat :=
  if b ≤ a then some (a - b) else none

/-- The `GraduationDex` enum: Raydium = 0 (the `#[default]` variant),
Orca = 1, Jupiter = 2. -/
inductive GraduationDex where
  | Raydium
  | Orca
  | Jupiter
deriving DecidableEq, Repr

/-- Discriminant of a `GraduationDex` value (`as u8` in the source). -/
def GraduationDex.toU8 : GraduationDex → Nat
  | .Raydium => 0
  | .Orca => 1
  | .Jupiter => 2

/-- The `#[default]` variant of `GraduationDex`. -/
def GraduationDex.default : GraduationDex := .Raydium

/-- The `PlpError` enum of the program. -/
inductive PlpError where
  | LiquidityLocked
  | PoolGraduated
  | Overflow
  | InsufficientSol
  | InsufficientTokens
deriving DecidableEq, Repr

/-- Anchor framework errors relevant here: violation of the
`has_one = authority` account constraint. -/
inductive AnchorError where
  | ConstraintHasOne
deriving DecidableEq, Repr

/-- The persisted `Pool` account record.  `Pubkey` fields are opaque
naturals; `total_sol` and `total_tokens` are u64 counters bounded by
`UMAX` at every update. -/
structure Pool where
  authority : Nat
  mint : Nat
  vault_sol : Nat
  vault_token : Nat
  curve_type : Nat
  locked : Bool
  graduated : Bool
  graduation_dex : Nat
  total_sol : Nat
  total_tokens : Nat
  bump : Nat
deriving DecidableEq, Repr

/-- `InitPoolArgs`: the instruction arguments of `init_pool`. -/
structure InitPoolArgs where
  mint : Nat
  curve_type : Nat
deriving DecidableEq, Repr

/-- `init_pool`: allocates the record, copies the authority and vault
keys and the args, clears both flags, sets `graduation_dex` to the
default discriminant, zeroes both totals and stores the bump. -/
def init_pool (authority vault_sol vault_token : Nat) (args : InitPoolArgs)
    (bump : Nat) : Pool :=
  { authority := authority
    mint := args.mint
    vault_sol := vault_sol
    vault_token := vault_token
    curve_type := args.curve_type
    locked := false
    graduated := false
    graduation_dex := GraduationDex.default.toU8
    total_sol := 0
    total_tokens := 0
    bump := bump }

/-- `buy`: rejects a locked or graduated pool, then adds `lamports` to
`total_sol` and `tokens` to `total_tokens` with checked addition, each
failure mapped to `PlpError::Overflow`. -/
def buy (pool : Pool) (tokens lamports : Nat) : Except PlpError Pool :=
  if pool.locked then .error .LiquidityLocked
  else if pool.graduated then .error .PoolGraduated
  else
    match checked_add pool.total_sol lamports with
    | none => .error .Overflow
    | some s =>
      let pool := { pool with total_sol := s }
      match checked_add pool.total_tokens tokens with
      | none => .error .Overflow
      | some t => .ok { pool with total_tokens := t }

/-- `sell`: rejects a locked or graduated pool, then subtracts
`lamports` from `total_sol` (failure: `InsufficientSol`) and `tokens`
from `total_tokens` (failure: `InsufficientTokens`) with checked
subtraction. -/
def sell (pool : Pool) (tokens lamports : Nat) : Except PlpError Pool :=
  if pool.locked then .error .LiquidityLocked
  else if pool.graduated then .error .PoolGraduated
  else
    match checked_sub pool.total_sol lamports with
    | none => .error .InsufficientSol
    | some s =>
      let pool := { pool with total_sol := s }
      match checked_sub pool.total_tokens tokens with
      | none => .error .InsufficientTokens
      | some t => .ok { pool with total_tokens := t }

/-- `lock_liquidity` handler body: sets `locked` to the argument
unconditionally. -/
def lock_liquidity (pool : Pool) (locked : Bool) : Pool :=
  { pool with locked := locked }

/-- `graduate` handler body: sets `graduated` to true and records the
venue discriminant unconditionally. -/
def graduate (pool : Pool) (dex : GraduationDex) : Pool :=
  { pool with graduated := true, graduation_dex := dex.toU8 }

/-- The `has_one = authority` constraint of the `UpdateState` accounts
struct: the signing caller must equal the stored `authority` key. -/
def hasOneAuthority (pool : Pool) (caller : Nat) : Bool :=
  caller == pool.authority

/-- Full `lock_liquidity` entry point: Anchor validates the
`UpdateState` accounts (the `has_one = authority` check) and only then
runs the handler body. -/
def lock_liquidity_entry (caller : Nat) (pool : Pool) (locked : Bool) :
    Except AnchorError Pool :=
  if hasOneAuthority pool caller then .ok (lock_liquidity pool locked)
  else .error .ConstraintHasOne

/-- Full `graduate` entry point: `has_one = authority` check, then the
handler body. -/
def graduate_entry (caller : Nat) (pool : Pool) (dex : GraduationDex) :
    Except AnchorError Pool :=
  if hasOneAuthority pool caller then .ok (graduate pool dex)
  else .error .ConstraintHasOne

/-- Ledger commit semantics: on `Ok` the returned record is persisted,
on `Err` the whole invocation's effects are discarded and the stored
record stays as it was. -/
def commit {e : Type} (pool : Pool) (r : Except e Pool) : Pool :=
  match r with
  | .ok q => q
  | .error _ => pool

/-- One operation of the pool state machine, tagged with the data the
corresponding entry point consumes. -/
inductive Op where
  | initOp (authority mint vault_sol vault_token curve_type bump : Nat)
  | buyOp (tokens lamports : Nat)
  | sellOp (tokens lamports : Nat)
  | lockOp (caller : Nat) (flag : Bool)
  | gradOp (caller : Nat) (dex : GraduationDex)
deriving Repr

/-- Applies one operation to the ledger state of the pool account
(`none` = not yet created).  `init_pool` on an existing account fails
Anchor's `init` constraint (exactly-once creation) and, like every
failing call, leaves the stored record unchanged; buy/sell/lock/
graduate on a missing account fail account resolution. -/
def applyOp (s : Option Pool) (op : Op) : Option Pool :=
  match s, op with
  | none, .initOp a m vs vt ct b => some (init_pool a vs vt ⟨m, ct⟩ b)
  | some p, .initOp _ _ _ _ _ _ => some p
  | none, _ => none
  | some p, .buyOp t l => some (commit p (buy p t l))
  | some p, .sellOp t l => some (commit p (sell p t l))
  | some p, .lockOp c f => some (commit p (lock_liquidity_entry c p f))
  | some p, .gradOp c d => some (commit p (graduate_entry c p d))

/-- Runs a sequence of operations against the ledger state. -/
def runOps (s : Option Pool) (ops : List Op) : Option Pool :=
  ops.foldl applyOp s

/-! ### Helper lemmas: checked arithmetic -/

theorem checked_add_some {a b c : Nat} :
    checked_add a b = some c ↔ a + b ≤ UMAX ∧ c = a + b := by
  unfold checked_add
  split
  next h => simp [h, eq_comm]
  next h => simp [h]

theorem checked_add_none {a b : Nat} :
    checked_add a b = none ↔ UMAX < a + b := by
  unfold checked_add
  split
  next h => simp [Nat.not_lt.mpr h]
  next h => simp [Nat.lt_of_not_le h]

theorem checked_sub_some {a b c : Nat} :
    checked_sub a b = some c ↔ b ≤ a ∧ c = a - b := by
  unfold checked_sub
  split
  next h => simp [h, eq_comm]
  next h => simp [h]

theorem checked_sub_none {a b : Nat} :
    checked_sub a b = none ↔ a < b := by
  unfold checked_sub
  split
  next h => simp [Nat.not_lt.mpr h]
  next h => simp [Nat.lt_of_not_le h]

/-! ### Helper lemmas: case analyses of buy and sell -/

theorem buy_locked (p : Pool) (tokens lamports : Nat) (hl : p.locked = true) :
    buy p tokens lamports = .error .LiquidityLocked := by
  simp [buy, hl]

theorem sell_locked (p : Pool) (tokens lamports : Nat) (hl : p.locked = true) :
    sell p tokens lamports = .error .LiquidityLocked := by
  simp [sell, hl]

theorem buy_graduated (p : Pool) (tokens lamports : Nat)
    (hl : p.locked = false) (hg : p.graduated = true) :
    buy p tokens lamports = .error .PoolGraduated := by
  simp [buy, hl, hg]

theorem sell_graduated (p : Pool) (tokens lamports : Nat)
    (hl : p.locked = false) (hg : p.graduated = true) :
    sell p tokens lamports = .error .PoolGraduated := by
  simp [sell, hl, hg]

theorem buy_eq_ok (p : Pool) (tokens lamports : Nat)
    (hl : p.locked = false) (hg : p.graduated = false)
    (hs : p.total_sol + lamports ≤ UMAX)
    (ht : p.total_tokens + tokens ≤ UMAX) :
    buy p tokens lamports =
      .ok { p with total_sol := p.total_sol + lamports,
                   total_tokens := p.total_tokens + tokens } := by
  simp [buy, checked_add, hl, hg, hs, ht]

theorem buy_overflow_sol (p : Pool) (tokens lamports : Nat)
    (hl : p.locked = false) (hg : p.graduated = false)
    (hs : UMAX < p.total_sol + lamports) :
    buy p tokens lamports = .error .Overflow := by
  have hs' : ¬ (p.total_sol + lamports ≤ UMAX) := Nat.not_le.mpr hs
  simp [buy, checked_add, hl, hg, hs']

theorem buy_overflow_tokens (p : Pool) (tokens lamports : Nat)
    (hl : p.locked = false) (hg : p.graduated = false)
    (hs : p.total_sol + lamports ≤ UMAX)
    (ht : UMAX < p.total_tokens + tokens) :
    buy p tokens lamports = .error .Overflow := by
  have ht' : ¬ (p.total_tokens + tokens ≤ UMAX) := Nat.not_le.mpr ht
  simp [buy, checked_add, hl, hg, hs, ht']

theorem sell_eq_ok (p : Pool) (tokens lamports : Nat)
    (hl : p.locked = false) (hg : p.graduated = false)
    (hs : lamports ≤ p.total_sol) (ht : tokens ≤ p.total_tokens) :
    sell p tokens lamports =
      .ok { p with total_sol := p.total_sol - lamports,
                   total_tokens := p.total_tokens - tokens } := by
  simp [sell, checked_sub, hl, hg, hs, ht]

theorem sell_insufficient_sol (p : Pool) (tokens lamports : Nat)
    (hl : p.locked = false) (hg : p.graduated = false)
    (hs : p.total_sol < lamports) :
    sell p tokens lamports = .error .InsufficientSol := by
  have hs' : ¬ (lamports ≤ p.total_sol) := Nat.not_le.mpr hs
  simp [sell, checked_sub, hl, hg, hs']

theorem sell_insufficient_tokens (p : Pool) (tokens lamports : Nat)
    (hl : p.locked = false) (hg : p.graduated = false)
    (hs : lamports ≤ p.total_sol) (ht : p.total_tokens < tokens) :
    sell p tokens lamports = .error .InsufficientTokens := by
  have ht' : ¬ (tokens ≤ p.total_tokens) := Nat.not_le.mpr ht
  simp [sell, checked_sub, hl, hg, hs, ht']

/-! ### Concrete records used by witnesses and counterexamples -/

/-- An ordinary unlocked, ungraduated pool holding 50 lamports and 100
tokens, used to instantiate universally quantified theorems. -/
def poolW : Pool :=
  { authority := 10, mint := 11, vault_sol := 12, vault_token := 13,
    curve_type := 1, locked := false, graduated := false,
    graduation_dex := 0, total_sol := 50, total_tokens := 100, bump := 254 }

/-- `poolW` after a buy of 5 tokens for 7 lamports. -/
def poolWq : Pool := { poolW with total_sol := 57, total_tokens := 105 }

/-- `poolW` after a sell of 5 tokens for 7 lamports. -/
def poolWr : Pool := { poolW with total_sol := 43, total_tokens := 95 }

/-! ### Claims -/

/-- Claim C1: for every pool state with `locked = false` and
`graduated = false`, a successful buy with deltas `(tokens, lamports)`
yields `total_sol` equal to the old `total_sol` plus `lamports` and
`total_tokens` equal to the old `total_tokens` plus `tokens`, and a
successful sell yields the old totals minus the deltas, exactly, with
no rounding. -/
theorem C1_trade_totals_exact (p q : Pool) (tokens lamports : Nat)
    (hl : p.locked = false) (hg : p.graduated = false) :
    (buy p tokens lamports = .ok q →
      q.total_sol = p.total_sol + lamports ∧
      q.total_tokens = p.total_tokens + tokens) ∧
    (sell p tokens lamports = .ok q →
      q.total_sol + lamports = p.total_sol ∧
      q.total_tokens + tokens = p.total_tokens ∧
      q.total_sol = p.total_sol - lamports ∧
      q.total_tokens = p.total_tokens - tokens) := by
  constructor
  · intro h
    rcases le_or_lt (p.total_sol + lamports) UMAX with hs | hs
    · rcases le_or_lt (p.total_tokens + tokens) UMAX with ht | ht
      · rw [buy_eq_ok p tokens lamports hl hg hs ht] at h
        injection h with h
        subst h
        exact ⟨rfl, rfl⟩
      · rw [buy_overflow_tokens p tokens lamports hl hg hs ht] at h
        exact absurd h (by simp)
    · rw [buy_overflow_sol p tokens lamports hl hg hs] at h
      exact absurd h (by simp)
  · intro h
    rcases le_or_lt lamports p.total_sol with hs | hs
    · rcases le_or_lt tokens p.total_tokens with ht | ht
      · rw [sell_eq_ok p tokens lamports hl hg hs ht] at h
        injection h with h
        subst h
        exact ⟨Nat.sub_add_cancel hs, Nat.sub_add_cancel ht, rfl, rfl⟩
      · rw [sell_insufficient_tokens p tokens lamports hl hg hs ht] at h
        exact absurd h (by simp)
    · rw [sell_insufficient_sol p tokens lamports hl hg hs] at h
      exact absurd h (by simp)

/-- Witness for C1 at a concrete pool: a buy of (5 tokens, 7 lamports)
and a sell of (5 tokens, 7 lamports) from `poolW` change the totals by
exactly the deltas. -/
theorem C1_trade_totals_exact_witness :
    (poolWq.total_sol = poolW.total_sol + 7 ∧
      poolWq.total_tokens = poolW.total_tokens + 5) ∧
    (poolWr.total_sol + 7 = poolW.total_sol ∧
      poolWr.total_tokens + 5 = poolW.total_tokens ∧
      poolWr.total_sol = poolW.total_sol - 7 ∧
      poolWr.total_tokens = poolW.total_tokens - 5) :=
  ⟨(C1_trade_totals_exact poolW poolWq 5 7 rfl rfl).1 rfl,
   (C1_trade_totals_exact poolW poolWr 5 7 rfl rfl).2 rfl⟩

/-- Claim C9: `init_pool` produces a record with `locked = false`,
`graduated = false`, `graduation_dex` set to the default venue
(discriminant 0), both totals zero, and the authority, mint, both
vault keys, curve tag and bump taken from the call's inputs. -/
theorem C9_init_pool_fields
    (authority vault_sol vault_token mint curve_type bump : Nat) :
    (init_pool authority vault_sol vault_token ⟨mint, curve_type⟩
        bump).locked = false ∧
    (init_pool authority vault_sol vault_token ⟨mint, curve_type⟩
        bump).graduated = false ∧
    (init_pool authority vault_sol vault_token ⟨mint, curve_type⟩
        bump).graduation_dex = GraduationDex.default.toU8 ∧
    GraduationDex.default.toU8 = 0 ∧
    (init_pool authority vault_sol vault_token ⟨mint, curve_type⟩
        bump).total_sol = 0 ∧
    (init_pool authority vault_sol vault_token ⟨mint, curve_type⟩
        bump).total_tokens = 0 ∧
    (init_pool authority vault_sol vault_token ⟨mint, curve_type⟩
        bump).authority = authority ∧
    (init_pool authority vault_sol vault_token ⟨mint, curve_type⟩
        bump).mint = mint ∧
    (init_pool authority vault_sol vault_token ⟨mint, curve_type⟩
        bump).vault_sol = vault_sol ∧
    (init_pool authority vault_sol vault_token ⟨mint, curve_type⟩
        bump).vault_token = vault_token ∧
    (init_pool authority vault_sol vault_token ⟨mint, curve_type⟩
        bump).curve_type = curve_type ∧
    (init_pool authority vault_sol vault_token ⟨mint, curve_type⟩
        bump).bump = bump :=
  ⟨rfl, rfl, rfl, rfl, rfl, rfl, rfl, rfl, rfl, rfl, rfl, rfl⟩

/-- Claim C10: when `locked` and `graduated` are both true, buy and
sell fail with `LiquidityLocked`, not `PoolGraduated`: the locked check
runs before the graduated check. -/
theorem C10_locked_precedence (p : Pool) (tokens lamports : Nat)
    (hl : p.locked = true) (_hg : p.graduated = true) :
    buy p tokens lamports = .error .LiquidityLocked ∧
    sell p tokens lamports = .error .LiquidityLocked ∧
    PlpError.LiquidityLocked ≠ PlpError.PoolGraduated :=
  ⟨buy_locked p tokens lamports hl, sell_locked p tokens lamports hl,
   by decide⟩

/-- A pool with both `locked` and `graduated` set. -/
def poolBoth : Pool :=
  { poolW with locked := true, graduated := true }

/-- Claim C2 counterexample: on a pool with `locked = true` and
`graduated = true` — a state the claim covers, since `graduated` is
true — buy and sell fail with `LiquidityLocked`, not with
`PoolGraduated` as the claim requires for graduated pools. -/
theorem C2_counterexample :
    poolBoth.graduated = true ∧
    buy poolBoth 1 1 = .error .LiquidityLocked ∧
    sell poolBoth 1 1 = .error .LiquidityLocked ∧
    PlpError.LiquidityLocked ≠ PlpError.PoolGraduated :=
  ⟨rfl, rfl, rfl, by decide⟩

/-- Claim C2, amended: for every pool state in which `locked` is true
or `graduated` is true, both buy and sell fail — with `LiquidityLocked`
when locked, with `PoolGraduated` when graduated and not locked — and
the committed record is unchanged in every field. -/
theorem C2_flags_reject_trades (p : Pool) (tokens lamports : Nat)
    (h : p.locked = true ∨ p.graduated = true) :
    commit p (buy p tokens lamports) = p ∧
    commit p (sell p tokens lamports) = p ∧
    (p.locked = true →
      buy p tokens lamports = .error .LiquidityLocked ∧
      sell p tokens lamports = .error .LiquidityLocked) ∧
    (p.locked = false → p.graduated = true →
      buy p tokens lamports = .error .PoolGraduated ∧
      sell p tokens lamports = .error .PoolGraduated) := by
  have hfail : buy p tokens lamports =
      (if p.locked then Except.error PlpError.LiquidityLocked
       else Except.error PlpError.PoolGraduated) ∧
      sell p tokens lamports =
      (if p.locked then Except.error PlpError.LiquidityLocked
       else Except.error PlpError.PoolGraduated) := by
    cases hl : p.locked with
    | true =>
      simp [buy_locked p tokens lamports hl, sell_locked p tokens lamports hl]
    | false =>
      rcases h with h | h
      · rw [hl] at h
        exact absurd h (by decide)
      · simp [buy_graduated p tokens lamports hl h,
          sell_graduated p tokens lamports hl h]
  constructor
  · rw [hfail.1]
    cases p.locked <;> rfl
  constructor
  · rw [hfail.2]
    cases p.locked <;> rfl
  constructor
  · intro hl
    rw [hfail.1, hfail.2, hl]
    exact ⟨rfl, rfl⟩
  · intro hl _
    rw [hfail.1, hfail.2, hl]
    exact ⟨rfl, rfl⟩

/-- Witness for the amended C2 at a concrete locked pool: the committed
state is unchanged and both trades report `LiquidityLocked`. -/
theorem C2_flags_reject_trades_witness :
    commit poolBoth (buy poolBoth 2 3) = poolBoth ∧
    commit poolBoth (sell poolBoth 2 3) = poolBoth ∧
    buy poolBoth 2 3 = .error .LiquidityLocked ∧
    sell poolBoth 2 3 = .error .LiquidityLocked := by
  have h := C2_flags_reject_trades poolBoth 2 3 (Or.inl rfl)
  exact ⟨h.1, h.2.1, h.2.2.1 rfl⟩

/-- `poolW` with the SOL counter at the u64 maximum. -/
def poolSolMax : Pool := { poolW with total_sol := UMAX }

/-- `poolW` with the token counter at the u64 maximum. -/
def poolTokMax : Pool := { poolW with total_tokens := UMAX }

/-- Claim C3: when a buy fails because checked addition overflows on
either counter, or a sell fails because checked subtraction underflows
on either counter, the committed record keeps both `total_sol` and
`total_tokens` (indeed every field): both counters update or neither
does. -/
theorem C3_failed_trade_atomic (p : Pool) (tokens lamports : Nat)
    (hl : p.locked = false) (hg : p.graduated = false) :
    (UMAX < p.total_sol + lamports ∨ UMAX < p.total_tokens + tokens →
      (∃ e, buy p tokens lamports = .error e) ∧
      commit p (buy p tokens lamports) = p) ∧
    (p.total_sol < lamports ∨ p.total_tokens < tokens →
      (∃ e, sell p tokens lamports = .error e) ∧
      commit p (sell p tokens lamports) = p) := by
  constructor
  · intro h
    rcases h with h | h
    · rw [buy_overflow_sol p tokens lamports hl hg h]
      exact ⟨⟨.Overflow, rfl⟩, rfl⟩
    · rcases le_or_lt (p.total_sol + lamports) UMAX with hs | hs
      · rw [buy_overflow_tokens p tokens lamports hl hg hs h]
        exact ⟨⟨.Overflow, rfl⟩, rfl⟩
      · rw [buy_overflow_sol p tokens lamports hl hg hs]
        exact ⟨⟨.Overflow, rfl⟩, rfl⟩
  · intro h
    rcases h with h | h
    · rw [sell_insufficient_sol p tokens lamports hl hg h]
      exact ⟨⟨.InsufficientSol, rfl⟩, rfl⟩
    · rcases le_or_lt lamports p.total_sol with hs | hs
      · rw [sell_insufficient_tokens p tokens lamports hl hg hs h]
        exact ⟨⟨.InsufficientTokens, rfl⟩, rfl⟩
      · rw [sell_insufficient_sol p tokens lamports hl hg hs]
        exact ⟨⟨.InsufficientSol, rfl⟩, rfl⟩

/-- Witness for C3: a buy of 1 lamport onto a full SOL counter fails
and commits no change; a sell of 51 lamports from a pool holding 50
fails and commits no change. -/
theorem C3_failed_trade_atomic_witness :
    ((∃ e, buy poolSolMax 0 1 = .error e) ∧
      commit poolSolMax (buy poolSolMax 0 1) = poolSolMax) ∧
    ((∃ e, sell poolW 0 51 = .error e) ∧
      commit poolW (sell poolW 0 51) = poolW) :=
  ⟨(C3_failed_trade_atomic poolSolMax 0 1 rfl rfl).1 (Or.inl (by decide)),
   (C3_failed_trade_atomic poolW 0 51 rfl rfl).2 (Or.inl (by decide))⟩

/-- Claim C5 counterexample: the overflow error does not identify the
counter.  A buy overflowing the value counter (`poolSolMax`, 1 lamport)
and a buy overflowing the token counter (`poolTokMax`, 1 token) return
the very same error `Overflow`; the program's error enum has one
overflow variant, not separate ValueOverflow / TokenOverflow variants. -/
theorem C5_counterexample :
    buy poolSolMax 0 1 = .error .Overflow ∧
    buy poolTokMax 1 0 = .error .Overflow ∧
    buy poolSolMax 0 1 = buy poolTokMax 1 0 :=
  ⟨rfl, rfl, rfl⟩

/-- Claim C5, amended: when buy fails because a checked addition
overflowed — whichever of the two counters it was — the returned error
is the single variant `Overflow`; callers cannot tell the two cases
apart from the error. -/
theorem C5_single_overflow_error (p : Pool) (tokens lamports : Nat)
    (hl : p.locked = false) (hg : p.graduated = false)
    (h : UMAX < p.total_sol + lamports ∨ UMAX < p.total_tokens + tokens) :
    buy p tokens lamports = .error .Overflow := by
  rcases h with h | h
  · exact buy_overflow_sol p tokens lamports hl hg h
  · rcases le_or_lt (p.total_sol + lamports) UMAX with hs | hs
    · exact buy_overflow_tokens p tokens lamports hl hg hs h
    · exact buy_overflow_sol p tokens lamports hl hg hs

/-- Witness for the amended C5: a token-counter overflow reports
`Overflow`. -/
theorem C5_single_overflow_error_witness :
    buy poolTokMax 1 0 = .error .Overflow :=
  C5_single_overflow_error poolTokMax 1 0 rfl rfl (Or.inr (by decide))

/-- Claim C6: on an unlocked, ungraduated pool a sell whose lamports
delta exceeds `total_sol` fails with `InsufficientSol`; when the SOL
subtraction succeeds but the token delta exceeds `total_tokens` it
fails with `InsufficientTokens`; and no counter ever wraps below zero:
a successful sell implies both deltas were covered and the new totals
are exact differences. -/
theorem C6_sell_insufficient (p : Pool) (tokens lamports : Nat)
    (hl : p.locked = false) (hg : p.graduated = false) :
    (p.total_sol < lamports →
      sell p tokens lamports = .error .InsufficientSol) ∧
    (lamports ≤ p.total_sol → p.total_tokens < tokens →
      sell p tokens lamports = .error .InsufficientTokens) ∧
    (∀ q, sell p tokens lamports = .ok q →
      lamports ≤ p.total_sol ∧ tokens ≤ p.total_tokens ∧
      q.total_sol + lamports = p.total_sol ∧
      q.total_tokens + tokens = p.total_tokens) := by
  refine ⟨fun hs => sell_insufficient_sol p tokens lamports hl hg hs,
    fun hs ht => sell_insufficient_tokens p tokens lamports hl hg hs ht,
    fun q h => ?_⟩
  rcases le_or_lt lamports p.total_sol with hs | hs
  · rcases le_or_lt tokens p.total_tokens with ht | ht
    · rw [sell_eq_ok p tokens lamports hl hg hs ht] at h
      injection h with h
      subst h
      exact ⟨hs, ht, Nat.sub_add_cancel hs, Nat.sub_add_cancel ht⟩
    · rw [sell_insufficient_tokens p tokens lamports hl hg hs ht] at h
      exact absurd h (by simp)
  · rw [sell_insufficient_sol p tokens lamports hl hg hs] at h
    exact absurd h (by simp)

/-- Witness for C6: selling 51 lamports from a pool with 50 reports
`InsufficientSol`; selling 101 tokens (and 50 lamports) from a pool
with 100 tokens reports `InsufficientTokens`. -/
theorem C6_sell_insufficient_witness :
    sell poolW 0 51 = .error .InsufficientSol ∧
    sell poolW 101 50 = .error .InsufficientTokens :=
  ⟨(C6_sell_insufficient poolW 0 51 rfl rfl).1 (by decide),
   (C6_sell_insufficient poolW 101 50 rfl rfl).2.1 (by decide) (by decide)⟩

/-- Claim C7: a caller different from the stored `authority` makes
`lock_liquidity` and `graduate` fail with the authorization error (the
`has_one = authority` constraint violation) and commit no change to the
record; a caller equal to the stored authority passes the
authorization check. -/
theorem C7_authority_gate (caller : Nat) (p : Pool) (flag : Bool)
    (dex : GraduationDex) (h : caller ≠ p.authority) :
    lock_liquidity_entry caller p flag = .error .ConstraintHasOne ∧
    graduate_entry caller p dex = .error .ConstraintHasOne ∧
    commit p (lock_liquidity_entry caller p flag) = p ∧
    commit p (graduate_entry caller p dex) = p ∧
    hasOneAuthority p p.authority = true := by
  have hc : hasOneAuthority p caller = false := by
    simp [hasOneAuthority, h]
  have h1 : lock_liquidity_entry caller p flag = .error .ConstraintHasOne := by
    simp [lock_liquidity_entry, hc]
  have h2 : graduate_entry caller p dex = .error .ConstraintHasOne := by
    simp [graduate_entry, hc]
  refine ⟨h1, h2, ?_, ?_, by simp [hasOneAuthority]⟩
  · rw [h1]
    rfl
  · rw [h2]
    rfl

/-- Witness for C7: caller 99 is not `poolW`'s authority (10); both
administrative calls fail with the constraint error and change
nothing, while the stored authority itself passes the check. -/
theorem C7_authority_gate_witness :
    lock_liquidity_entry 99 poolW true = .error .ConstraintHasOne ∧
    graduate_entry 99 poolW .Orca = .error .ConstraintHasOne ∧
    commit poolW (lock_liquidity_entry 99 poolW true) = poolW ∧
    commit poolW (graduate_entry 99 poolW .Orca) = poolW ∧
    hasOneAuthority poolW poolW.authority = true :=
  C7_authority_gate 99 poolW true .Orca (by decide)

/-- Claim C8: an authorized `lock_liquidity flag` sets `locked` to
`flag` unconditionally — also when `graduated` is true — and an
authorized `graduate dex` sets `graduated` to true and
`graduation_dex` to the venue's discriminant regardless of the prior
value; the record-update form shows every other field, the two totals
included, is untouched. -/
theorem C8_flag_writes_frame (caller : Nat) (p : Pool) (flag : Bool)
    (dex : GraduationDex) (h : caller = p.authority) :
    lock_liquidity_entry caller p flag = .ok { p with locked := flag } ∧
    graduate_entry caller p dex =
      .ok { p with graduated := true, graduation_dex := dex.toU8 } := by
  have hc : hasOneAuthority p caller = true := by
    simp [hasOneAuthority, h]
  constructor
  · simp [lock_liquidity_entry, hc, lock_liquidity]
  · simp [graduate_entry, hc, graduate]

/-- An already-graduated pool (venue discriminant 1) administered by
authority 10. -/
def poolGrad : Pool := { poolW with graduated := true, graduation_dex := 1 }

/-- Witness for C8 on an already-graduated pool: locking succeeds and
regraduating to Jupiter overwrites the venue, with the totals intact. -/
theorem C8_flag_writes_frame_witness :
    lock_liquidity_entry 10 poolGrad true =
      .ok { poolGrad with locked := true } ∧
    graduate_entry 10 poolGrad .Jupiter =
      .ok { poolGrad with graduated := true, graduation_dex := 2 } :=
  C8_flag_writes_frame 10 poolGrad true .Jupiter rfl

/-- Applying any single operation to an existing pool record yields an
existing record and preserves `graduated = true`. -/
theorem applyOp_graduated_mono (p : Pool) (op : Op)
    (hg : p.graduated = true) :
    ∃ q, applyOp (some p) op = some q ∧ q.graduated = true := by
  cases op with
  | initOp a m vs vt ct b => exact ⟨p, rfl, hg⟩
  | buyOp t l =>
    refine ⟨commit p (buy p t l), rfl, ?_⟩
    cases hl : p.locked with
    | true =>
      rw [buy_locked p t l hl]
      exact hg
    | false =>
      rw [buy_graduated p t l hl hg]
      exact hg
  | sellOp t l =>
    refine ⟨commit p (sell p t l), rfl, ?_⟩
    cases hl : p.locked with
    | true =>
      rw [sell_locked p t l hl]
      exact hg
    | false =>
      rw [sell_graduated p t l hl hg]
      exact hg
  | lockOp c f =>
    refine ⟨commit p (lock_liquidity_entry c p f), rfl, ?_⟩
    unfold lock_liquidity_entry
    split
    · exact hg
    · exact hg
  | gradOp c d =>
    refine ⟨commit p (graduate_entry c p d), rfl, ?_⟩
    unfold graduate_entry
    split
    · rfl
    · exact hg

/-- Claim C4: once the `graduated` flag is true, no sequence of init,
buy, sell, lock_liquidity and graduate operations ever brings the
stored record back to `graduated = false`. -/
theorem C4_graduated_monotone (p : Pool) (ops : List Op) (q : Pool)
    (hg : p.graduated = true) (hrun : runOps (some p) ops = some q) :
    q.graduated = true := by
  induction ops generalizing p with
  | nil =>
    unfold runOps at hrun
    rw [List.foldl_nil] at hrun
    injection hrun with h
    subst h
    exact hg
  | cons op rest ih =>
    obtain ⟨r, hr, hrg⟩ := applyOp_graduated_mono p op hg
    unfold runOps at hrun
    rw [List.foldl_cons, hr] at hrun
    exact ih r hrg hrun

/-- Result of the C4 witness run: `poolGrad` with the venue overwritten
to the default discriminant by a repeated graduate call. -/
def poolGradQ : Pool := { poolGrad with graduation_dex := 0 }

/-- Witness for C4: starting from the graduated `poolGrad`, a concrete
run of unlock, buy, sell, re-graduate and a replayed init ends in a
record that is still graduated. -/
theorem C4_graduated_monotone_witness : poolGradQ.graduated = true :=
  C4_graduated_monotone poolGrad
    [Op.lockOp 10 false, Op.buyOp 1 1, Op.sellOp 1 1,
     Op.gradOp 10 .Raydium, Op.initOp 1 2 3 4 5 6] poolGradQ rfl (by rfl)

/-- Witness for C10: on `poolBoth` (both flags true) buy and sell
return `LiquidityLocked`. -/
theorem C10_locked_precedence_witness :
    buy poolBoth 1 1 = .error .LiquidityLocked ∧
    sell poolBoth 1 1 = .error .LiquidityLocked ∧
    PlpError.LiquidityLocked ≠ PlpError.PoolGraduated :=
  C10_locked_precedence poolBoth 1 1 rfl rfl

end Plp
